import Mathlib

/-!
Verification of the photo-automation processing core

Shallow embedding of the repository's processing-pipeline coordination layer:

* `ImageProcessor.calculateTargetDimensions` — the pure geometry function of
  `src/services/imageProcessor.ts` (fit/fill/stretch resize geometry).
* `PhotoroomService.removeBackground` — the remote-provider HTTP adapter of
  `src/services/photoroomService.ts`, including the one-time
  sandbox-credential fallback on HTTP 402.
* `AIService.removeBackgroundDual` — the settle-all dual-provider join of
  `src/services/aiService.ts`.
* `ImageStore.*` — the Zustand store actions (`updateImageDimensions`,
  `updateBulkDimensions`, `removeImage`, `applyWatermarkToAll`) and the
  two async runs `processImage` / `reprocessImage`, modelled as explicit
  traces of the successive collection states produced by each `set` call.

JS numbers are modelled as `ℤ`/`ℚ` (canvas dimensions are integers; ratio
arithmetic is exact rational arithmetic, with `Math.round x` embedded as
`⌊x + 1/2⌋`, JavaScript's round-half-up).  `Blob` is modelled as a
provenance tree recording which pipeline operations built the binary, so
that properties such as "the stored result contains the composited
watermark" are decidable observations on the model.
-/

/-- A background-removal provider (`imgly` local model or `Photoroom` API). -/
inductive Provider where
  | imgly
  | photoroom
deriving DecidableEq, Repr

/-- Model of `ResizeMode` from `src/types/image.ts`. -/
inductive ResizeMode where
  | fit
  | fill
  | stretch
deriving DecidableEq, Repr

/-- Job lifecycle status from `src/types/image.ts`. -/
inductive Status where
  | idle
  | processing
  | done
  | error
deriving DecidableEq, Repr

/-- Model of `processingStage` tag from `src/types/image.ts`. -/
inductive Stage where
  | removingBg
  | applyingBg
  | resizing
  | addingWatermark
  | finalizing
deriving DecidableEq, Repr

/-- A watermark setting: `{ file: File; scale: number }`.  The file is
identified by its name; the scale is an exact rational. -/
structure Watermark where
  file : String
  scale : ℚ
deriving DecidableEq, Repr

/-- Binary blobs, modelled by their pipeline provenance: an uploaded file,
a provider's transparent background-removal output, a white-background
composite (`applyWhiteBackground`), or a watermark composite
(`addWatermark`). -/
inductive Blob where
  | upload (name : String)
  | removed (p : Provider) (source : String)
  | whiteBg (b : Blob)
  | watermarked (b : Blob) (w : Watermark)
deriving DecidableEq, Repr

/-- Whether a watermark composite occurs anywhere in the blob's provenance. -/
def Blob.hasWatermark : Blob → Bool
  | .upload _ => false
  | .removed _ _ => false
  | .whiteBg b => b.hasWatermark
  | .watermarked _ _ => true

/-- Width/height pair (`ImageDimensions` / the `dimensions` job field). -/
structure Dimensions where
  width : ℤ
  height : ℤ
deriving DecidableEq, Repr

namespace ImageProcessor

/-- JavaScript `Math.round`: round half toward positive infinity. -/
def jsRound (q : ℚ) : ℤ := ⌊q + 1/2⌋

/-- Result record of `calculateTargetDimensions`:
`{ width, height, offsetX, offsetY }`. -/
structure CalcResult where
  width : ℤ
  height : ℤ
  offsetX : ℤ
  offsetY : ℤ
deriving DecidableEq, Repr

/-- Model of `ImageProcessor.calculateTargetDimensions` from
`src/services/imageProcessor.ts` (lines 81–126), with canvas dimensions as
naturals and the float ratio arithmetic carried out exactly in `ℚ`. -/
def calculateTargetDimensions (originalWidth originalHeight targetWidth targetHeight : ℕ)
    (mode : ResizeMode) : CalcResult :=
  let originalRatio : ℚ := (originalWidth : ℚ) / (originalHeight : ℚ)
  let targetRatio : ℚ := (targetWidth : ℚ) / (targetHeight : ℚ)
  match mode with
  | .stretch => ⟨targetWidth, targetHeight, 0, 0⟩
  | .fit =>
    if originalRatio > targetRatio then
      -- image is wider: fit to width
      let height := jsRound ((targetWidth : ℚ) / originalRatio)
      ⟨targetWidth, height, 0, jsRound (((targetHeight : ℚ) - (height : ℚ)) / 2)⟩
    else
      -- image is taller: fit to height
      let width := jsRound ((targetHeight : ℚ) * originalRatio)
      ⟨width, targetHeight, jsRound (((targetWidth : ℚ) - (width : ℚ)) / 2), 0⟩
  | .fill =>
    if originalRatio > targetRatio then
      -- image is wider: fit to height and crop sides
      let width := jsRound ((targetHeight : ℚ) * originalRatio)
      ⟨width, targetHeight, jsRound (((targetWidth : ℚ) - (width : ℚ)) / 2), 0⟩
    else
      -- image is taller: fit to width and crop top/bottom
      let height := jsRound ((targetWidth : ℚ) / originalRatio)
      ⟨targetWidth, height, 0, jsRound (((targetHeight : ℚ) - (height : ℚ)) / 2)⟩

/-- Model of `ImageProcessor.applyWhiteBackground`: draws the blob over a white
canvas and re-encodes.  The asynchronous canvas/encode machinery can fail
(`canvas.toBlob` yielding `null` rejects); the `ok` flag is the outcome of
that environment-dependent step. -/
def applyWhiteBackground (ok : Bool) (b : Blob) : Except String Blob :=
  if ok then .ok (.whiteBg b) else .error "Canvas to Blob dönüşümü başarısız"

/-- Model of `ImageProcessor.addWatermark`: centers the (possibly shrunk) watermark
over the base image and re-encodes, producing a composite carrying the
watermark in its provenance. -/
def addWatermark (b : Blob) (w : Watermark) : Blob := .watermarked b w

end ImageProcessor

namespace PhotoroomService

/-- Model of `PhotoroomResponse` from `src/services/photoroomService.ts`.
`processingTime` (a wall-clock measurement) is omitted from the model. -/
structure PhotoroomResponse where
  success : Bool
  resultBlob : Option Blob
  error : Option String
  creditsRemaining : Option ℤ
deriving DecidableEq, Repr

/-- The mutable singleton fields of `PhotoroomService` that
`removeBackground` reads or writes. -/
structure ServiceState where
  apiKey : String
  sandboxKey : String
  currentKey : String
  usingSandbox : Bool
  isConfigured : Bool
  creditsUsed : ℕ
  lastError : Option String
deriving DecidableEq, Repr

/-- An HTTP response from the segmentation endpoint.  `blobBody` is the
`response.blob()` payload consumed on 2xx; `errorText` is the
`response.text()` body read on non-2xx; `errorJsonMessage` is the message
the JSON error-envelope extraction (`errorJson.error?.message ||
errorJson.message`) would yield, `none` when parsing fails or neither
field is present. -/
structure HttpResponse where
  status : ℕ
  blobBody : Blob
  errorText : String
  errorJsonMessage : Option String
  creditsRemaining : Option ℤ
deriving Repr

/-- JavaScript `response.ok`: status in the 2xx range. -/
def HttpResponse.respOk (r : HttpResponse) : Bool :=
  decide (200 ≤ r.status ∧ r.status ≤ 299)

/-- The error message computed from a non-2xx response body before the
status-specific overrides: `errorJson.error?.message || errorJson.message
|| errorText`, falling back to `errorText || 'HTTP <status>'` when the
JSON parse throws. -/
def baseErrorMessage (r : HttpResponse) : String :=
  match r.errorJsonMessage with
  | some m => if m = "" then r.errorText else m
  | none => if r.errorText = "" then "HTTP " ++ toString r.status else r.errorText

/-- Model of `PhotoroomService.isReady`. -/
def isReady (st : ServiceState) : Bool :=
  st.isConfigured && decide (st.apiKey.length > 0)

/-- Model of `PhotoroomService.removeBackground` from
`src/services/photoroomService.ts` (lines 109–231).  `fetch` maps the
API key carried in the `X-Api-Key` header to the network outcome (a
thrown network error or an `HttpResponse`).  Returns the updated service
state, the `PhotoroomResponse`, and the list of keys used for the HTTP
attempts made (in order), so that the retry behaviour is observable.
On HTTP 402 with the sandbox key configured and not yet in use, the
service latches `usingSandbox`, switches `currentKey` to the sandbox key
and retries itself once.  The source's second `response.status === 401`
branch (message `Geçersiz API key...`) is dead code, shadowed by the
first 401 branch. -/
def removeBackground (st : ServiceState) (fetch : String → Except String HttpResponse) :
    ServiceState × PhotoroomResponse × List String :=
  if ¬ (isReady st = true) then
    ({ st with lastError := some "Photoroom API key not configured" },
     { success := false, resultBlob := none,
       error := some "API key bulunamadı. Lütfen .env dosyasına VITE_PHOTOROOM_API_KEY ekleyin.",
       creditsRemaining := none },
     [])
  else
    match fetch st.currentKey with
    | .error msg =>
      ({ st with lastError := some ("Network hatası: " ++ msg) },
       { success := false, resultBlob := none,
         error := some ("Network hatası: " ++ msg), creditsRemaining := none },
       [st.currentKey])
    | .ok resp =>
      if resp.respOk then
        ({ st with creditsUsed := st.creditsUsed + 1, lastError := none },
         { success := true, resultBlob := some resp.blobBody, error := none,
           creditsRemaining := resp.creditsRemaining },
         [st.currentKey])
      else if h : resp.status = 402 ∧ st.usingSandbox = false ∧ st.sandboxKey ≠ "" then
        -- main API limit reached: switch to sandbox and retry once
        let rec' := removeBackground
          { st with currentKey := st.sandboxKey, usingSandbox := true } fetch
        (rec'.1, rec'.2.1, st.currentKey :: rec'.2.2)
      else
        let msg :=
          if resp.status = 402 then
            "API krediniz tükendi. Lütfen Photoroom hesabınızı yükseltin."
          else if resp.status = 401 then
            "API krediniz tükendi. Lütfen Photoroom hesabınızı yükseltin."
          else if resp.status = 429 then
            "Çok fazla istek. Lütfen birkaç saniye bekleyin."
          else baseErrorMessage resp
        ({ st with lastError := some msg },
         { success := false, resultBlob := none, error := some msg,
           creditsRemaining := none },
         [st.currentKey])
termination_by (if st.usingSandbox then 0 else 1)
decreasing_by simp [h.2.1]

end PhotoroomService

namespace AIService

/-- JavaScript `x || d` on an optional string: the default replaces both
an absent and an empty (falsy) message. -/
def jsOr (s? : Option String) (d : String) : String :=
  match s? with
  | some s => if s = "" then d else s
  | none => d

/-- Model of `DualProcessingResult` from `src/services/aiService.ts` (lines 10–15). -/
structure DualProcessingResult where
  imglyBlob : Option Blob
  photoroomBlob : Option Blob
  imglyError : Option String
  photoroomError : Option String
deriving DecidableEq, Repr

/-- The settled outcome of the Photoroom task inside
`removeBackgroundDual`: throws when the service is not configured or when
the `PhotoroomResponse` is unsuccessful or carries no blob, otherwise
fulfills with the result blob.  The error payload is the thrown `Error`'s
`message` (an `Option String` models `reason?.message`). -/
def photoroomTask (ready : Bool) (resp : PhotoroomService.PhotoroomResponse) :
    Except (Option String) Blob :=
  if ready = false then .error (some "Photoroom API not configured")
  else
    match resp.resultBlob with
    | none => .error (some (jsOr resp.error "Photoroom processing failed"))
    | some b =>
      if resp.success = false then
        .error (some (jsOr resp.error "Photoroom processing failed"))
      else .ok b

/-- Model of `AIService.removeBackgroundDual` from `src/services/aiService.ts`
(lines 78–160): a `Promise.allSettled` join of the two provider tasks.
`imglySettled` is the settled outcome of the imgly task (its wrapper
rethrows the underlying rejection unchanged); the Photoroom task outcome
is derived from the service readiness and its response by
`photoroomTask`.  The join itself always resolves: this function is
total, and each rejected task is recorded as a `none` blob plus a
provider-scoped error string. -/
def removeBackgroundDual (imglySettled : Except (Option String) Blob)
    (photoroomReady : Bool) (resp : PhotoroomService.PhotoroomResponse) :
    DualProcessingResult :=
  let base : DualProcessingResult :=
    { imglyBlob := none, photoroomBlob := none,
      imglyError := none, photoroomError := none }
  let r1 :=
    match imglySettled with
    | .ok b => { base with imglyBlob := some b }
    | .error reason => { base with imglyError := some (jsOr reason "imgly processing failed") }
  match photoroomTask photoroomReady resp with
  | .ok b => { r1 with photoroomBlob := some b }
  | .error reason => { r1 with photoroomError := some (jsOr reason "Photoroom processing failed") }

end AIService

/-- Model of `ImageObject` from `src/types/image.ts` (dual-provider version).
TypeScript `T | null` and optional fields are both `Option`s. -/
structure ImageObject where
  id : String
  originalFile : String
  processedBlob : Option Blob
  imglyBlob : Option Blob
  photoroomBlob : Option Blob
  status : Status
  dimensions : Dimensions
  resizeMode : Option ResizeMode
  maintainAspectRatio : Option Bool
  newName : String
  errorMessage : Option String
  watermark : Option Watermark
  processingStage : Option Stage
  imglyProgress : Option ℤ
  photoroomProgress : Option ℤ
deriving DecidableEq, Repr

namespace ImageStore

/-- The per-id update pattern used by every `set` call of the store:
`state.images.map(img => img.id === id ? f(img) : img)`. -/
def updateJob (id : String) (f : ImageObject → ImageObject)
    (images : List ImageObject) : List ImageObject :=
  images.map fun img => if img.id == id then f img else img

/-- Model of `removeImage` from the store (`src/store/imageStore.ts`):
`state.images.filter(img => img.id !== id)`. -/
def removeImage (id : String) (images : List ImageObject) : List ImageObject :=
  images.filter fun img => img.id != id

/-- Model of `updateImageDimensions` from the store: a pure metadata update of
`dimensions`/`resizeMode`/`maintainAspectRatio` on the matching job.  The
second component is the list of job ids for which a processing run is
triggered — empty, mirroring the source's explicit `NO reprocessing`
comment. -/
def updateImageDimensions (id : String) (width height : ℤ)
    (resizeMode? : Option ResizeMode) (maintainAspectRatio? : Option Bool)
    (images : List ImageObject) : List ImageObject × List String :=
  (images.map fun img =>
    if img.id == id then
      { img with
        dimensions := ⟨width, height⟩,
        resizeMode := some ((resizeMode?.or img.resizeMode).getD .fit),
        maintainAspectRatio := some ((maintainAspectRatio?.or img.maintainAspectRatio).getD true) }
    else img,
   [])

/-- Model of `updateBulkDimensions` from the store: the same metadata update
applied to every job; again no processing run is triggered. -/
def updateBulkDimensions (width height : ℤ)
    (resizeMode? : Option ResizeMode) (maintainAspectRatio? : Option Bool)
    (images : List ImageObject) : List ImageObject × List String :=
  (images.map fun img =>
    { img with
      dimensions := ⟨width, height⟩,
      resizeMode := some ((resizeMode?.or img.resizeMode).getD .fit),
      maintainAspectRatio := some ((maintainAspectRatio?.or img.maintainAspectRatio).getD true) },
   [])

/-- Model of `applyWatermarkToAll` from the store: with no global watermark it is a
no-op; otherwise it stamps the global watermark onto every job and then
calls `reprocessImage` for every job id in the updated collection (the
second component is that list of triggered re-runs). -/
def applyWatermarkToAll (globalWatermark : Option Watermark)
    (images : List ImageObject) : List ImageObject × List String :=
  match globalWatermark with
  | none => (images, [])
  | some w =>
    let updated := images.map fun img => { img with watermark := some w }
    (updated, updated.map (·.id))

/-- The environment of one dual-processing run: the settled
`DualProcessingResult` of `aiService.removeBackgroundDual` and the
outcomes of the two `applyWhiteBackground` canvas steps. -/
structure RunEnv where
  dual : AIService.DualProcessingResult
  imglyWbgOk : Bool
  photoroomWbgOk : Bool
deriving Repr

/-- The environment of a `processImage` run: additionally the outcome of
`imageProcessor.getImageDimensions` on the source file. -/
structure ProcEnv extends RunEnv where
  dims : Except String Dimensions
deriving Repr

/-- Model of `await applyWhiteBackground(blob)` for one provider's optional dual
result, as in the store's `if (dualResult.xBlob) { ... }` guard. -/
def runWhiteBgOne (ok : Bool) (b? : Option Blob) : Except String (Option Blob) :=
  match b? with
  | some b => (ImageProcessor.applyWhiteBackground ok b).map some
  | none => .ok none

/-- The white-background section of a run: imgly first, then Photoroom;
the first rejection propagates to the surrounding `catch`. -/
def runWhiteBg (env : RunEnv) : Except String (Option Blob × Option Blob) :=
  match runWhiteBgOne env.imglyWbgOk env.dual.imglyBlob with
  | .error e => .error e
  | .ok iw =>
    match runWhiteBgOne env.photoroomWbgOk env.dual.photoroomBlob with
    | .error e => .error e
    | .ok pw => .ok (iw, pw)

/-- Model of `reprocessImage` from the store, as the trace of collection states
produced by its successive `set` calls, in source order: (1) status
`processing`, both progresses 0; (2) stage `removing-bg`, progresses 10;
(3) stage `applying-bg`, progresses 50; then the white-background steps —
on rejection the `catch` writes status `error`; otherwise (4) progresses
70; (5) the single final write storing both provider results (possibly
`none`), stage `finalizing`, status `done`, progresses 100.  An unknown
id returns the empty trace (the early `return`).  The interleaved
per-provider progress callbacks only write progress fields and are
elided. -/
def reprocessTrace (id : String) (env : RunEnv)
    (images : List ImageObject) : List (List ImageObject) :=
  match images.find? (fun img => img.id == id) with
  | none => []
  | some _ =>
    let st1 := updateJob id (fun img =>
      { img with status := .processing, imglyProgress := some 0, photoroomProgress := some 0 }) images
    let st2 := updateJob id (fun img =>
      { img with processingStage := some .removingBg,
                 imglyProgress := some 10, photoroomProgress := some 10 }) st1
    let st3 := updateJob id (fun img =>
      { img with processingStage := some .applyingBg,
                 imglyProgress := some 50, photoroomProgress := some 50 }) st2
    match runWhiteBg env with
    | .error e =>
      [st1, st2, st3,
       updateJob id (fun img => { img with status := .error, errorMessage := some e }) st3]
    | .ok (iw, pw) =>
      let st4 := updateJob id (fun img =>
        { img with imglyProgress := some 70, photoroomProgress := some 70 }) st3
      let st5 := updateJob id (fun img =>
        { img with processingStage := some .finalizing,
                   imglyBlob := iw, photoroomBlob := pw, status := .done,
                   imglyProgress := some 100, photoroomProgress := some 100 }) st4
      [st1, st2, st3, st4, st5]

/-- Model of `processImage` from the store, as the trace of collection states
produced by its successive `set` calls, in source order: (1) status
`processing`, progresses 0; (2) stage `removing-bg`, progresses 5; then
`getImageDimensions` — a rejection reaches the `catch`, which writes
status `error`; otherwise (3) the dimensions, progresses 10; (4) stage
`applying-bg`, progresses 50; then the white-background steps (rejection
again reaches the `catch`); (5) progresses 70; (6) stage `finalizing` and
the stored results at original size, progresses 90; (7) status `done`,
progresses 100, stage cleared. -/
def processTrace (id : String) (env : ProcEnv)
    (images : List ImageObject) : List (List ImageObject) :=
  match images.find? (fun img => img.id == id) with
  | none => []
  | some _ =>
    let st1 := updateJob id (fun img =>
      { img with status := .processing, imglyProgress := some 0, photoroomProgress := some 0 }) images
    let st2 := updateJob id (fun img =>
      { img with processingStage := some .removingBg,
                 imglyProgress := some 5, photoroomProgress := some 5 }) st1
    match env.dims with
    | .error e =>
      [st1, st2,
       updateJob id (fun img => { img with status := .error, errorMessage := some e }) st2]
    | .ok d =>
      let st3 := updateJob id (fun img =>
        { img with dimensions := d, imglyProgress := some 10, photoroomProgress := some 10 }) st2
      let st4 := updateJob id (fun img =>
        { img with processingStage := some .applyingBg,
                   imglyProgress := some 50, photoroomProgress := some 50 }) st3
      match runWhiteBg env.toRunEnv with
      | .error e =>
        [st1, st2, st3, st4,
         updateJob id (fun img => { img with status := .error, errorMessage := some e }) st4]
      | .ok (iw, pw) =>
        let st5 := updateJob id (fun img =>
          { img with imglyProgress := some 70, photoroomProgress := some 70 }) st4
        let st6 := updateJob id (fun img =>
          { img with processingStage := some .finalizing,
                     imglyBlob := iw, photoroomBlob := pw,
                     imglyProgress := some 90, photoroomProgress := some 90 }) st5
        let st7 := updateJob id (fun img =>
          { img with status := .done, imglyProgress := some 100, photoroomProgress := some 100,
                     processingStage := none }) st6
        [st1, st2, st3, st4, st5, st6, st7]

/-- The job carrying a given id in a collection state. -/
def jobIn (id : String) (images : List ImageObject) : Option ImageObject :=
  images.find? fun img => img.id == id

end ImageStore

/-- A finished first run's stored imgly result for the sample job. -/
def run1Blob : Blob := .whiteBg (.removed .imgly "photo.png")

/-- A sample job that has completed a first processing run with an imgly
result stored. -/
def doneJob : ImageObject :=
  { id := "job1", originalFile := "photo.png", processedBlob := none,
    imglyBlob := some run1Blob, photoroomBlob := none, status := .done,
    dimensions := ⟨800, 600⟩, resizeMode := none, maintainAspectRatio := none,
    newName := "photo", errorMessage := none, watermark := none,
    processingStage := none, imglyProgress := some 100, photoroomProgress := some 100 }

/-- A re-run environment in which both providers fail (both dual slots
empty), as when imgly rejects and Photoroom is unconfigured. -/
def bothFailEnv : ImageStore.RunEnv :=
  { dual := { imglyBlob := none, photoroomBlob := none,
              imglyError := some "imgly processing failed",
              photoroomError := some "Photoroom API not configured" },
    imglyWbgOk := true, photoroomWbgOk := true }

/-- A re-run environment in which both providers succeed. -/
def bothOkEnv : ImageStore.RunEnv :=
  { dual := { imglyBlob := some (.removed .imgly "photo.png"),
              photoroomBlob := some (.removed .photoroom "photo.png"),
              imglyError := none, photoroomError := none },
    imglyWbgOk := true, photoroomWbgOk := true }

/-- The configured global watermark of the C2 scenario. -/
def sampleWatermark : Watermark := { file := "logo.png", scale := 4/5 }

/-- Field-wise agreement of two jobs on everything except `dimensions`,
`resizeMode` and `maintainAspectRatio`. -/
def ImageObject.sameExceptDims (a b : ImageObject) : Prop :=
  b.id = a.id ∧ b.originalFile = a.originalFile ∧ b.processedBlob = a.processedBlob ∧
  b.imglyBlob = a.imglyBlob ∧ b.photoroomBlob = a.photoroomBlob ∧ b.status = a.status ∧
  b.newName = a.newName ∧ b.errorMessage = a.errorMessage ∧ b.watermark = a.watermark ∧
  b.processingStage = a.processingStage ∧ b.imglyProgress = a.imglyProgress ∧
  b.photoroomProgress = a.photoroomProgress

/-- A configured Photoroom service with a primary and a sandbox key. -/
def prReadyState : PhotoroomService.ServiceState :=
  { apiKey := "primary", sandboxKey := "sandbox", currentKey := "primary",
    usingSandbox := false, isConfigured := true, creditsUsed := 0, lastError := none }

/-- An HTTP 401 response. -/
def resp401 : PhotoroomService.HttpResponse :=
  { status := 401, blobBody := .upload "x", errorText := "unauthorized",
    errorJsonMessage := none, creditsRemaining := none }

/-- An HTTP 402 response. -/
def resp402 : PhotoroomService.HttpResponse :=
  { status := 402, blobBody := .upload "x", errorText := "payment required",
    errorJsonMessage := none, creditsRemaining := none }

/-- A network answering 401 to every request. -/
def fetch401 : String → Except String PhotoroomService.HttpResponse :=
  fun _ => .ok resp401

/-- A network answering 402 to the primary key and 401 to any other key. -/
def fetch402then401 : String → Except String PhotoroomService.HttpResponse :=
  fun k => if k == "primary" then .ok resp402 else .ok resp401

/-- The terminal error message a non-2xx, non-retried response produces:
the status-specific overrides for 402/401/429 (the second source branch
for 401 being dead code) over the JSON-envelope base message. -/
def terminalMsg (resp : PhotoroomService.HttpResponse) : String :=
  if resp.status = 402 then
    "API krediniz tükendi. Lütfen Photoroom hesabınızı yükseltin."
  else if resp.status = 401 then
    "API krediniz tükendi. Lütfen Photoroom hesabınızı yükseltin."
  else if resp.status = 429 then
    "Çok fazla istek. Lütfen birkaç saniye bekleyin."
  else PhotoroomService.baseErrorMessage resp

theorem forall₂_map_self {R : ImageObject → ImageObject → Prop}
    (g : ImageObject → ImageObject) (h : ∀ a, R a (g a)) :
    ∀ l : List ImageObject, List.Forall₂ R l (l.map g)
  | [] => List.Forall₂.nil
  | a :: t => List.Forall₂.cons (h a) (forall₂_map_self g h t)

theorem updateJob_eq_of_not_present (id : String) (f : ImageObject → ImageObject)
    (l : List ImageObject) (h : ∀ img ∈ l, (img.id == id) = false) :
    ImageStore.updateJob id f l = l := by
  induction l with
  | nil => rfl
  | cons a t ih =>
    simp only [ImageStore.updateJob, List.map_cons]
    rw [h a (List.mem_cons_self a t)]
    simp only [if_neg Bool.false_ne_true]
    exact congrArg (a :: ·) (ih fun img hm => h img (List.mem_cons_of_mem a hm))

theorem removeImage_not_present (id : String) (l : List ImageObject) :
    ∀ img ∈ ImageStore.removeImage id l, (img.id == id) = false := by
  intro img hm
  have := (List.mem_filter.mp hm).2
  simpa [bne] using this

theorem jobIn_removeImage (id : String) (l : List ImageObject) :
    ImageStore.jobIn id (ImageStore.removeImage id l) = none := by
  rw [ImageStore.jobIn, List.find?_eq_none]
  intro img hm
  simp [removeImage_not_present id l img hm]

theorem jsOr_ne_empty (s? : Option String) (d : String) (hd : d ≠ "") :
    AIService.jsOr s? d ≠ "" := by
  unfold AIService.jsOr
  cases s? with
  | none => exact hd
  | some s =>
    by_cases h : s = ""
    · simp only [h, if_pos rfl]
      exact hd
    · simp only [if_neg h]
      exact h

/-- C1: for every job and all width > 0, height > 0,
`updateImageDimensions` and `updateBulkDimensions` leave every job's
status and stored results (`imglyBlob`, `photoroomBlob`, `processedBlob`)
unchanged — indeed every field except `dimensions`, `resizeMode` and
`maintainAspectRatio` — and trigger no processing run (the triggered-run
list is empty). -/
theorem dimension_updates_are_pure_metadata (id : String) (width height : ℤ)
    (rm? : Option ResizeMode) (mar? : Option Bool) (images : List ImageObject)
    (hw : 0 < width) (hh : 0 < height) :
    ((ImageStore.updateImageDimensions id width height rm? mar? images).2 = [] ∧
      List.Forall₂ ImageObject.sameExceptDims images
        (ImageStore.updateImageDimensions id width height rm? mar? images).1) ∧
    ((ImageStore.updateBulkDimensions width height rm? mar? images).2 = [] ∧
      List.Forall₂ ImageObject.sameExceptDims images
        (ImageStore.updateBulkDimensions width height rm? mar? images).1) := by
  refine ⟨⟨rfl, ?_⟩, ⟨rfl, ?_⟩⟩
  · exact forall₂_map_self _
      (fun a => by
        by_cases h : (a.id == id) = true <;>
          simp [ImageObject.sameExceptDims, h])
      images
  · exact forall₂_map_self _
      (fun a => by simp [ImageObject.sameExceptDims])
      images

theorem dimension_updates_are_pure_metadata_witness :
    (0 : ℤ) < 500 ∧ (0 : ℤ) < 500 ∧
    ((ImageStore.updateImageDimensions "job1" 500 500 (some .fill) none [doneJob]).2 = [] ∧
      List.Forall₂ ImageObject.sameExceptDims [doneJob]
        (ImageStore.updateImageDimensions "job1" 500 500 (some .fill) none [doneJob]).1) :=
  ⟨by decide, by decide,
    (dimension_updates_are_pure_metadata "job1" 500 500 (some .fill) none [doneJob]
      (by decide) (by decide)).1⟩

/-- C9: after `removeImage(id)`, every later per-id `set` update performed
by a still-pending run for that id is a no-op on the collection: the
update (a total function, so settling never throws) returns the
collection unchanged, the removed job is never re-inserted, and a run
looking up the removed id performs no state updates at all. -/
theorem write_after_delete_noop (id : String) (f : ImageObject → ImageObject)
    (env : ImageStore.RunEnv) (penv : ImageStore.ProcEnv) (images : List ImageObject) :
    ImageStore.updateJob id f (ImageStore.removeImage id images) =
        ImageStore.removeImage id images ∧
    (ImageStore.updateJob id f (ImageStore.removeImage id images)).all
        (fun img => img.id != id) = true ∧
    ImageStore.reprocessTrace id env (ImageStore.removeImage id images) = [] ∧
    ImageStore.processTrace id penv (ImageStore.removeImage id images) = [] := by
  have hnp := removeImage_not_present id images
  have hupd := updateJob_eq_of_not_present id f _ hnp
  have hfind : (ImageStore.removeImage id images).find? (fun img => img.id == id) = none :=
    jobIn_removeImage id images
  refine ⟨hupd, ?_, ?_, ?_⟩
  · rw [hupd, List.all_eq_true]
    intro img hm
    simpa [bne] using hnp img hm
  · rw [ImageStore.reprocessTrace, hfind]
  · rw [ImageStore.processTrace, hfind]

/-- C4: the dual-provider join settles both tasks and never rejects (in
the model, `removeBackgroundDual` is a total function): a provider that
fulfilled has its blob recorded regardless of the other's outcome, and a
provider that rejected is recorded as a `none` blob plus a non-empty
provider-scoped error string rather than a propagated exception. -/
theorem removeBackgroundDual_settles_both (i : Except (Option String) Blob)
    (ready : Bool) (resp : PhotoroomService.PhotoroomResponse) :
    (∀ b, i = .ok b → (AIService.removeBackgroundDual i ready resp).imglyBlob = some b) ∧
    (∀ b, AIService.photoroomTask ready resp = .ok b →
      (AIService.removeBackgroundDual i ready resp).photoroomBlob = some b) ∧
    (∀ e, i = .error e →
      (AIService.removeBackgroundDual i ready resp).imglyBlob = none ∧
      (AIService.removeBackgroundDual i ready resp).imglyError =
        some (AIService.jsOr e "imgly processing failed") ∧
      AIService.jsOr e "imgly processing failed" ≠ "") ∧
    (∀ e, AIService.photoroomTask ready resp = .error e →
      (AIService.removeBackgroundDual i ready resp).photoroomBlob = none ∧
      (AIService.removeBackgroundDual i ready resp).photoroomError =
        some (AIService.jsOr e "Photoroom processing failed") ∧
      AIService.jsOr e "Photoroom processing failed" ≠ "") := by
  refine ⟨?_, ?_, ?_, ?_⟩
  · intro b hb
    subst hb
    unfold AIService.removeBackgroundDual
    cases AIService.photoroomTask ready resp <;> rfl
  · intro b hb
    unfold AIService.removeBackgroundDual
    rw [hb]
  · intro e he
    subst he
    unfold AIService.removeBackgroundDual
    refine ⟨?_, ?_, jsOr_ne_empty e _ (by decide)⟩
    · cases AIService.photoroomTask ready resp <;> rfl
    · cases AIService.photoroomTask ready resp <;> rfl
  · intro e he
    unfold AIService.removeBackgroundDual
    rw [he]
    refine ⟨?_, ?_, jsOr_ne_empty e _ (by decide)⟩
    · cases i <;> rfl
    · cases i <;> rfl

theorem removeBackgroundDual_settles_both_witness :
    ((AIService.removeBackgroundDual (.ok (.removed .imgly "photo.png")) false
        { success := false, resultBlob := none, error := none,
          creditsRemaining := none }).imglyBlob = some (.removed .imgly "photo.png")) ∧
    ((AIService.removeBackgroundDual (.ok (.removed .imgly "photo.png")) false
        { success := false, resultBlob := none, error := none,
          creditsRemaining := none }).photoroomBlob = none ∧
      (AIService.removeBackgroundDual (.ok (.removed .imgly "photo.png")) false
        { success := false, resultBlob := none, error := none,
          creditsRemaining := none }).photoroomError =
        some (AIService.jsOr (some "Photoroom API not configured") "Photoroom processing failed") ∧
      AIService.jsOr (some "Photoroom API not configured") "Photoroom processing failed" ≠ "") :=
  ⟨(removeBackgroundDual_settles_both (.ok (.removed .imgly "photo.png")) false
      { success := false, resultBlob := none, error := none,
        creditsRemaining := none }).1 _ rfl,
    (removeBackgroundDual_settles_both (.ok (.removed .imgly "photo.png")) false
      { success := false, resultBlob := none, error := none,
        creditsRemaining := none }).2.2.2 (some "Photoroom API not configured") rfl⟩

/-- C10: every `DualProcessingResult` satisfies, for each provider
independently, exactly one of: blob present with no error, or blob absent
with a non-empty error string (the two disjuncts are mutually exclusive
since one asserts the blob present and the other asserts it absent). -/
theorem dual_result_blob_error_dichotomy (i : Except (Option String) Blob)
    (ready : Bool) (resp : PhotoroomService.PhotoroomResponse) :
    (((AIService.removeBackgroundDual i ready resp).imglyBlob ≠ none ∧
      (AIService.removeBackgroundDual i ready resp).imglyError = none) ∨
     ((AIService.removeBackgroundDual i ready resp).imglyBlob = none ∧
      ∃ s, (AIService.removeBackgroundDual i ready resp).imglyError = some s ∧ s ≠ "")) ∧
    (((AIService.removeBackgroundDual i ready resp).photoroomBlob ≠ none ∧
      (AIService.removeBackgroundDual i ready resp).photoroomError = none) ∨
     ((AIService.removeBackgroundDual i ready resp).photoroomBlob = none ∧
      ∃ s, (AIService.removeBackgroundDual i ready resp).photoroomError = some s ∧ s ≠ "")) := by
  unfold AIService.removeBackgroundDual
  constructor
  · cases i with
    | ok b => cases AIService.photoroomTask ready resp <;> exact Or.inl ⟨by simp, rfl⟩
    | error e =>
      cases AIService.photoroomTask ready resp <;>
        exact Or.inr ⟨rfl, AIService.jsOr e "imgly processing failed", rfl,
          jsOr_ne_empty e _ (by decide)⟩
  · cases hp : AIService.photoroomTask ready resp with
    | ok b => cases i <;> exact Or.inl ⟨by simp, rfl⟩
    | error e =>
      cases i <;>
        exact Or.inr ⟨rfl, AIService.jsOr e "Photoroom processing failed", rfl,
          jsOr_ne_empty e _ (by decide)⟩

theorem removeBackground_no_retry_branch (st : PhotoroomService.ServiceState)
    (fetch : String → Except String PhotoroomService.HttpResponse)
    (resp : PhotoroomService.HttpResponse)
    (hready : PhotoroomService.isReady st = true)
    (hfetch : fetch st.currentKey = .ok resp)
    (hnotok : resp.respOk = false)
    (hnoretry : ¬(resp.status = 402 ∧ st.usingSandbox = false ∧ st.sandboxKey ≠ "")) :
    PhotoroomService.removeBackground st fetch =
      ({ st with lastError := some (terminalMsg resp) },
       { success := false, resultBlob := none, error := some (terminalMsg resp),
         creditsRemaining := none },
       [st.currentKey]) := by
  rw [PhotoroomService.removeBackground]
  rw [if_neg (not_not_intro hready)]
  simp only [hfetch]
  rw [if_neg (by simp [hnotok])]
  rw [dif_neg hnoretry]
  rfl

theorem removeBackground_retry_branch (st : PhotoroomService.ServiceState)
    (fetch : String → Except String PhotoroomService.HttpResponse)
    (resp : PhotoroomService.HttpResponse)
    (hready : PhotoroomService.isReady st = true)
    (hfetch : fetch st.currentKey = .ok resp)
    (hnotok : resp.respOk = false)
    (h402 : resp.status = 402) (hsb : st.usingSandbox = false)
    (hkey : st.sandboxKey ≠ "") :
    PhotoroomService.removeBackground st fetch =
      ((PhotoroomService.removeBackground
          { st with currentKey := st.sandboxKey, usingSandbox := true } fetch).1,
       (PhotoroomService.removeBackground
          { st with currentKey := st.sandboxKey, usingSandbox := true } fetch).2.1,
       st.currentKey ::
         (PhotoroomService.removeBackground
            { st with currentKey := st.sandboxKey, usingSandbox := true } fetch).2.2) := by
  rw [PhotoroomService.removeBackground]
  rw [if_neg (not_not_intro hready)]
  simp only [hfetch]
  rw [if_neg (by simp [hnotok])]
  rw [dif_pos ⟨h402, hsb, hkey⟩]

theorem removeBackground_log_short (st : PhotoroomService.ServiceState)
    (fetch : String → Except String PhotoroomService.HttpResponse)
    (h : st.usingSandbox = true) :
    (PhotoroomService.removeBackground st fetch).2.2.length ≤ 1 := by
  rw [PhotoroomService.removeBackground]
  split
  · simp
  · split
    · simp
    · split
      · simp
      · split
        · next hc => exact absurd hc.2.1 (by simp [h])
        · simp

theorem removeBackground_at_most_one_retry (st : PhotoroomService.ServiceState)
    (fetch : String → Except String PhotoroomService.HttpResponse) :
    (PhotoroomService.removeBackground st fetch).2.2.length ≤ 2 := by
  rw [PhotoroomService.removeBackground]
  split
  · simp
  · split
    · simp
    · split
      · simp
      · split
        · next hc =>
          have h1 := removeBackground_log_short
            { st with currentKey := st.sandboxKey, usingSandbox := true } fetch rfl
          simpa using h1
        · simp

/-- C6 counterexample: with both credentials configured and the endpoint
answering HTTP 401, `removeBackground` makes exactly one attempt with the
primary key — it does not perform the fallback-credential retry the claim
asserts for 401 — and surfaces a terminal failure (with the
quota-exhausted message of the shadowing 401 branch). -/
theorem status401_no_fallback_retry :
    (PhotoroomService.removeBackground prReadyState fetch401).2.2 = ["primary"] ∧
    (PhotoroomService.removeBackground prReadyState fetch401).1.usingSandbox = false ∧
    (PhotoroomService.removeBackground prReadyState fetch401).1.currentKey = "primary" ∧
    (PhotoroomService.removeBackground prReadyState fetch401).2.1.success = false ∧
    (PhotoroomService.removeBackground prReadyState fetch401).2.1.error =
      some "API krediniz tükendi. Lütfen Photoroom hesabınızı yükseltin." := by
  rw [removeBackground_no_retry_branch prReadyState fetch401 resp401
    (by decide) rfl (by decide) (by decide)]
  refine ⟨rfl, rfl, rfl, rfl, ?_⟩
  rw [show terminalMsg resp401 =
    "API krediniz tükendi. Lütfen Photoroom hesabınızı yükseltin." from by decide]

/-- C6 amended: only HTTP 402 triggers the internal one-time
fallback-credential retry (and only when the sandbox key is configured
and not already in use); HTTP 401 and HTTP 429 — like every other
non-2xx status — are surfaced as terminal failures with no retry, and no
call of `removeBackground` ever makes more than two HTTP attempts. -/
theorem fallback_retry_only_on_402 (st : PhotoroomService.ServiceState)
    (fetch : String → Except String PhotoroomService.HttpResponse)
    (resp resp2 : PhotoroomService.HttpResponse)
    (hready : PhotoroomService.isReady st = true)
    (hfetch : fetch st.currentKey = .ok resp) :
    (resp.status = 402 → st.usingSandbox = false → st.sandboxKey ≠ "" →
      fetch st.sandboxKey = .ok resp2 → resp2.respOk = false →
      (PhotoroomService.removeBackground st fetch).2.2 = [st.currentKey, st.sandboxKey] ∧
      (PhotoroomService.removeBackground st fetch).2.1.success = false ∧
      (PhotoroomService.removeBackground st fetch).1.usingSandbox = true) ∧
    (resp.status = 401 →
      (PhotoroomService.removeBackground st fetch).2.2 = [st.currentKey] ∧
      (PhotoroomService.removeBackground st fetch).2.1.success = false ∧
      (PhotoroomService.removeBackground st fetch).2.1.error =
        some "API krediniz tükendi. Lütfen Photoroom hesabınızı yükseltin." ∧
      (PhotoroomService.removeBackground st fetch).1.usingSandbox = st.usingSandbox) ∧
    (resp.status = 429 →
      (PhotoroomService.removeBackground st fetch).2.2 = [st.currentKey] ∧
      (PhotoroomService.removeBackground st fetch).2.1.success = false ∧
      (PhotoroomService.removeBackground st fetch).2.1.error =
        some "Çok fazla istek. Lütfen birkaç saniye bekleyin." ∧
      (PhotoroomService.removeBackground st fetch).1.usingSandbox = st.usingSandbox) ∧
    (PhotoroomService.removeBackground st fetch).2.2.length ≤ 2 := by
  refine ⟨?_, ?_, ?_, removeBackground_at_most_one_retry st fetch⟩
  · intro h402 hsb hkey hfetch2 hnotok2
    have hnotok : resp.respOk = false := by
      simp [PhotoroomService.HttpResponse.respOk, h402]
    rw [removeBackground_retry_branch st fetch resp hready hfetch hnotok h402 hsb hkey]
    have hready2 : PhotoroomService.isReady
        { st with currentKey := st.sandboxKey, usingSandbox := true } = true := by
      simpa [PhotoroomService.isReady] using hready
    rw [removeBackground_no_retry_branch _ fetch resp2 hready2 hfetch2 hnotok2
      (by simp)]
    exact ⟨rfl, rfl, rfl⟩
  · intro h401
    have hnotok : resp.respOk = false := by
      simp [PhotoroomService.HttpResponse.respOk, h401]
    rw [removeBackground_no_retry_branch st fetch resp hready hfetch hnotok
      (by simp [h401])]
    refine ⟨rfl, rfl, ?_, rfl⟩
    rw [show terminalMsg resp =
      "API krediniz tükendi. Lütfen Photoroom hesabınızı yükseltin." from by
        simp [terminalMsg, h401]]
  · intro h429
    have hnotok : resp.respOk = false := by
      simp [PhotoroomService.HttpResponse.respOk, h429]
    rw [removeBackground_no_retry_branch st fetch resp hready hfetch hnotok
      (by simp [h429])]
    refine ⟨rfl, rfl, ?_, rfl⟩
    rw [show terminalMsg resp =
      "Çok fazla istek. Lütfen birkaç saniye bekleyin." from by
        simp [terminalMsg, h429]]

theorem fallback_retry_only_on_402_witness :
    PhotoroomService.isReady prReadyState = true ∧
    fetch402then401 prReadyState.currentKey = .ok resp402 ∧
    resp402.status = 402 ∧ prReadyState.usingSandbox = false ∧
    prReadyState.sandboxKey ≠ "" ∧
    fetch402then401 prReadyState.sandboxKey = .ok resp401 ∧
    resp401.respOk = false ∧
    ((PhotoroomService.removeBackground prReadyState fetch402then401).2.2 =
        ["primary", "sandbox"] ∧
      (PhotoroomService.removeBackground prReadyState fetch402then401).2.1.success = false ∧
      (PhotoroomService.removeBackground prReadyState fetch402then401).1.usingSandbox = true) :=
  ⟨by decide, rfl, rfl, rfl, by decide, rfl, by decide,
    (fallback_retry_only_on_402 prReadyState fetch402then401 resp402 resp401
      (by decide) rfl).1 rfl rfl (by decide) rfl (by decide)⟩

theorem le_jsRound (z : ℤ) (q : ℚ) (h : (z : ℚ) ≤ q + 1/2) :
    z ≤ ImageProcessor.jsRound q := by
  rw [ImageProcessor.jsRound, Int.le_floor]
  exact h

theorem jsRound_le (z : ℤ) (q : ℚ) (h : q + 1/2 < (z : ℚ) + 1) :
    ImageProcessor.jsRound q ≤ z := by
  rw [ImageProcessor.jsRound]
  have hlt : ⌊q + 1/2⌋ < z + 1 := Int.floor_lt.mpr (by push_cast; linarith)
  omega

theorem jsRound_center_bound (t : ℕ) (W : ℤ) (h : (t : ℤ) ≤ W) :
    |ImageProcessor.jsRound (((t : ℚ) - (W : ℚ)) / 2)| + (t : ℤ) ≤ W := by
  have htW : (t : ℚ) ≤ (W : ℚ) := by exact_mod_cast h
  have h0 : ImageProcessor.jsRound (((t : ℚ) - (W : ℚ)) / 2) ≤ 0 :=
    jsRound_le 0 _ (by push_cast; linarith)
  have h1 : (t : ℤ) - W ≤ ImageProcessor.jsRound (((t : ℚ) - (W : ℚ)) / 2) :=
    le_jsRound _ _ (by push_cast; linarith)
  rw [abs_of_nonpos h0]
  linarith

/-- C7: for `mode = 'fit'` with a source wider (in aspect ratio) than the
target, `calculateTargetDimensions` pins the width to the target width,
rounds the height from the aspect ratio, pins `offsetX` to 0 and centers
via `offsetY = round((targetH - height)/2)`; in particular source 800×600
into target 400×400 yields width 400, height 300, offsets (0, 50). -/
theorem fit_mode_geometry (sW sH tW tH : ℕ)
    (hsW : 0 < sW) (hsH : 0 < sH) (htW : 0 < tW) (htH : 0 < tH)
    (hwide : (tW : ℚ) / (tH : ℚ) < (sW : ℚ) / (sH : ℚ)) :
    (ImageProcessor.calculateTargetDimensions sW sH tW tH .fit =
      ⟨(tW : ℤ), ImageProcessor.jsRound ((tW : ℚ) / ((sW : ℚ) / (sH : ℚ))), 0,
        ImageProcessor.jsRound (((tH : ℚ) -
          ((ImageProcessor.jsRound ((tW : ℚ) / ((sW : ℚ) / (sH : ℚ)))) : ℚ)) / 2)⟩) ∧
    ImageProcessor.calculateTargetDimensions 800 600 400 400 .fit =
      ⟨400, 300, 0, 50⟩ := by
  constructor
  · simp only [ImageProcessor.calculateTargetDimensions]
    rw [if_pos hwide]
  · simp only [ImageProcessor.calculateTargetDimensions, ImageProcessor.jsRound]
    norm_num [ImageProcessor.CalcResult.mk.injEq]

theorem fit_mode_geometry_witness :
    0 < 800 ∧ 0 < 600 ∧ 0 < 400 ∧
    (400 : ℚ) / (400 : ℚ) < (800 : ℚ) / (600 : ℚ) ∧
    ImageProcessor.calculateTargetDimensions 800 600 400 400 .fit =
      ⟨400, 300, 0, 50⟩ :=
  ⟨by decide, by decide, by decide, by norm_num,
    (fit_mode_geometry 800 600 400 400 (by decide) (by decide) (by decide)
      (by decide) (by norm_num)).2⟩

/-- C8: for `mode = 'fill'` and positive source and target dimensions, the
draw dimensions cover the target on both axes, with equality on the
constraining axis, and the crop window starting at `(|offsetX|, |offsetY|)`
of size targetW × targetH lies inside the scaled draw area (so cropping
yields exactly the target size with no letterboxing); applied at source
800×600 into target 400×400 this gives full coverage of 400×400. -/
theorem fill_mode_covers_target (sW sH tW tH : ℕ)
    (hsW : 0 < sW) (hsH : 0 < sH) (htW : 0 < tW) (htH : 0 < tH) :
    (tW : ℤ) ≤ (ImageProcessor.calculateTargetDimensions sW sH tW tH .fill).width ∧
    (tH : ℤ) ≤ (ImageProcessor.calculateTargetDimensions sW sH tW tH .fill).height ∧
    ((ImageProcessor.calculateTargetDimensions sW sH tW tH .fill).width = (tW : ℤ) ∨
      (ImageProcessor.calculateTargetDimensions sW sH tW tH .fill).height = (tH : ℤ)) ∧
    |(ImageProcessor.calculateTargetDimensions sW sH tW tH .fill).offsetX| + (tW : ℤ) ≤
      (ImageProcessor.calculateTargetDimensions sW sH tW tH .fill).width ∧
    |(ImageProcessor.calculateTargetDimensions sW sH tW tH .fill).offsetY| + (tH : ℤ) ≤
      (ImageProcessor.calculateTargetDimensions sW sH tW tH .fill).height := by
  have hsH0 : (0 : ℚ) < (sH : ℚ) := by exact_mod_cast hsH
  have hsW0 : (0 : ℚ) < (sW : ℚ) := by exact_mod_cast hsW
  have htH0 : (0 : ℚ) < (tH : ℚ) := by exact_mod_cast htH
  have htW0 : (0 : ℚ) < (tW : ℚ) := by exact_mod_cast htW
  have hr0 : (0 : ℚ) < (sW : ℚ) / (sH : ℚ) := div_pos hsW0 hsH0
  simp only [ImageProcessor.calculateTargetDimensions]
  by_cases hr : (tW : ℚ) / (tH : ℚ) < (sW : ℚ) / (sH : ℚ)
  · rw [if_pos hr]
    have hx : (tW : ℚ) < (tH : ℚ) * ((sW : ℚ) / (sH : ℚ)) := by
      have h1 := (div_lt_iff htH0).mp hr
      linarith
    have hA : (tW : ℤ) ≤ ImageProcessor.jsRound ((tH : ℚ) * ((sW : ℚ) / (sH : ℚ))) :=
      le_jsRound _ _ (by push_cast; linarith)
    exact ⟨hA, le_refl _, Or.inr rfl, jsRound_center_bound tW _ hA, by simp⟩
  · rw [if_neg hr]
    have hle : (sW : ℚ) / (sH : ℚ) ≤ (tW : ℚ) / (tH : ℚ) := le_of_not_lt hr
    have hcancel : (tH : ℚ) * ((tW : ℚ) / (tH : ℚ)) = (tW : ℚ) := by
      field_simp
    have h1 : (tH : ℚ) * ((sW : ℚ) / (sH : ℚ)) ≤ (tW : ℚ) := by
      have h2 := mul_le_mul_of_nonneg_left hle (le_of_lt htH0)
      rw [hcancel] at h2
      exact h2
    have hx : (tH : ℚ) ≤ (tW : ℚ) / ((sW : ℚ) / (sH : ℚ)) := by
      rw [le_div_iff hr0]
      linarith
    have hB : (tH : ℤ) ≤ ImageProcessor.jsRound ((tW : ℚ) / ((sW : ℚ) / (sH : ℚ))) :=
      le_jsRound _ _ (by push_cast; linarith)
    exact ⟨le_refl _, hB, Or.inl rfl, by simp, jsRound_center_bound tH _ hB⟩

theorem fill_mode_covers_target_witness :
    0 < 800 ∧ 0 < 600 ∧ 0 < 400 ∧
    ((400 : ℤ) ≤ (ImageProcessor.calculateTargetDimensions 800 600 400 400 .fill).width ∧
      (400 : ℤ) ≤ (ImageProcessor.calculateTargetDimensions 800 600 400 400 .fill).height ∧
      ((ImageProcessor.calculateTargetDimensions 800 600 400 400 .fill).width = (400 : ℤ) ∨
        (ImageProcessor.calculateTargetDimensions 800 600 400 400 .fill).height = (400 : ℤ)) ∧
      |(ImageProcessor.calculateTargetDimensions 800 600 400 400 .fill).offsetX| + (400 : ℤ) ≤
        (ImageProcessor.calculateTargetDimensions 800 600 400 400 .fill).width ∧
      |(ImageProcessor.calculateTargetDimensions 800 600 400 400 .fill).offsetY| + (400 : ℤ) ≤
        (ImageProcessor.calculateTargetDimensions 800 600 400 400 .fill).height) :=
  ⟨by decide, by decide, by decide,
    fill_mode_covers_target 800 600 400 400 (by decide) (by decide) (by decide) (by decide)⟩

theorem getLast?_three {α : Type} (a b c : α) : [a, b, c].getLast? = some c := rfl

theorem getLast?_five {α : Type} (a b c d e : α) : [a, b, c, d, e].getLast? = some e := rfl

theorem getLast?_seven {α : Type} (a b c d e f g : α) :
    [a, b, c, d, e, f, g].getLast? = some g := rfl

theorem jobIn_updateJob (id : String) (f : ImageObject → ImageObject)
    (hf : ∀ img, (f img).id = img.id) (l : List ImageObject) :
    ImageStore.jobIn id (ImageStore.updateJob id f l) =
      (ImageStore.jobIn id l).map f := by
  induction l with
  | nil => rfl
  | cons a t ih =>
    by_cases h : (a.id == id) = true
    · have hfa : ((f a).id == id) = true := by rw [hf a]; exact h
      show ImageStore.jobIn id
          ((if (a.id == id) = true then f a else a) :: ImageStore.updateJob id f t) =
        Option.map f (ImageStore.jobIn id (a :: t))
      rw [if_pos h]
      unfold ImageStore.jobIn
      rw [List.find?_cons, List.find?_cons]
      simp only [hfa, h, Option.map_some']
    · have hb : (a.id == id) = false := by simpa using h
      show ImageStore.jobIn id
          ((if (a.id == id) = true then f a else a) :: ImageStore.updateJob id f t) =
        Option.map f (ImageStore.jobIn id (a :: t))
      rw [if_neg h]
      unfold ImageStore.jobIn
      rw [List.find?_cons, List.find?_cons]
      simp only [hb]
      exact ih

theorem runWhiteBg_ok (env : ImageStore.RunEnv)
    (hi : env.imglyWbgOk = true) (hp : env.photoroomWbgOk = true) :
    ImageStore.runWhiteBg env = .ok (env.dual.imglyBlob.map Blob.whiteBg,
      env.dual.photoroomBlob.map Blob.whiteBg) := by
  unfold ImageStore.runWhiteBg ImageStore.runWhiteBgOne
  cases env.dual.imglyBlob <;> cases env.dual.photoroomBlob <;>
    simp [ImageProcessor.applyWhiteBackground, hi, hp, Except.map]

/-- C5: when the orchestration steps succeed (`getImageDimensions`
resolves and white-background compositing completes for each successful
provider result), `processImage` always finishes with status `done`, for
every dual-provider outcome — even when only a subset of providers, or
none, produced a result; status `error` is reserved for orchestration
failures such as a `getImageDimensions` rejection. -/
theorem processImage_done_despite_provider_failures (id : String)
    (env : ImageStore.ProcEnv) (images : List ImageObject) (j : ImageObject)
    (hj : ImageStore.jobIn id images = some j) :
    (∀ d, env.dims = .ok d → env.imglyWbgOk = true → env.photoroomWbgOk = true →
      (((ImageStore.processTrace id env images).getLast?.bind
          (ImageStore.jobIn id)).map (fun x => (x.status, x.imglyBlob, x.photoroomBlob))) =
        some (.done, env.dual.imglyBlob.map Blob.whiteBg,
          env.dual.photoroomBlob.map Blob.whiteBg)) ∧
    (∀ e, env.dims = .error e →
      (((ImageStore.processTrace id env images).getLast?.bind
          (ImageStore.jobIn id)).map (fun x => (x.status, x.errorMessage))) =
        some (.error, some e)) := by
  have hj' : images.find? (fun img => img.id == id) = some j := hj
  constructor
  · intro d hdims hi hp
    simp only [ImageStore.processTrace, hj', hdims,
      runWhiteBg_ok env.toRunEnv hi hp]
    rw [getLast?_seven]
    simp only [Option.bind]
    rw [jobIn_updateJob id _ (by intro img; rfl), jobIn_updateJob id _ (by intro img; rfl),
        jobIn_updateJob id _ (by intro img; rfl), jobIn_updateJob id _ (by intro img; rfl),
        jobIn_updateJob id _ (by intro img; rfl), jobIn_updateJob id _ (by intro img; rfl),
        jobIn_updateJob id _ (by intro img; rfl), hj]
    rfl
  · intro e hdims
    simp only [ImageStore.processTrace, hj', hdims]
    rw [getLast?_three]
    simp only [Option.bind]
    rw [jobIn_updateJob id _ (by intro img; rfl), jobIn_updateJob id _ (by intro img; rfl),
        jobIn_updateJob id _ (by intro img; rfl), hj]
    rfl

theorem processImage_done_despite_provider_failures_witness :
    ImageStore.jobIn "job1" [doneJob] = some doneJob ∧
    (({ dual := bothFailEnv.dual, imglyWbgOk := true, photoroomWbgOk := true,
        dims := .ok ⟨800, 600⟩ } : ImageStore.ProcEnv).dims = .ok (⟨800, 600⟩ : Dimensions)) ∧
    (((ImageStore.processTrace "job1"
        { dual := bothFailEnv.dual, imglyWbgOk := true, photoroomWbgOk := true,
          dims := .ok ⟨800, 600⟩ } [doneJob]).getLast?.bind
        (ImageStore.jobIn "job1")).map (fun x => (x.status, x.imglyBlob, x.photoroomBlob))) =
      some (.done, none, none) :=
  ⟨rfl, rfl,
    (processImage_done_despite_provider_failures "job1"
      { dual := bothFailEnv.dual, imglyWbgOk := true, photoroomWbgOk := true,
        dims := .ok ⟨800, 600⟩ } [doneJob] doneJob rfl).1 ⟨800, 600⟩ rfl rfl rfl⟩

/-- C3 counterexample: with a job holding run 1's stored imgly result,
starting a re-run in which both providers fail shows that the first write
of the new run (status `processing`, both progresses reset to 0) does NOT
clear the previous results: the superseded run's `imglyBlob` is still
observable after the new run has started.  (The final write then replaces
it wholesale — here with `none` — so the stale blob survives for the whole
`processing` window, contrary to the claim.) -/
theorem reprocess_stale_result_observable :
    (((ImageStore.reprocessTrace "job1" bothFailEnv [doneJob]).head?.bind
      (ImageStore.jobIn "job1")).map
        (fun x => (x.status, x.imglyProgress, x.photoroomProgress, x.imglyBlob))) =
      some (.processing, some 0, some 0, some run1Blob) ∧
    run1Blob = .whiteBg (.removed .imgly "photo.png") ∧
    (((ImageStore.reprocessTrace "job1" bothFailEnv [doneJob]).getLast?.bind
      (ImageStore.jobIn "job1")).map (fun x => (x.status, x.imglyBlob))) =
      some (.done, none) := by
  refine ⟨?_, rfl, ?_⟩ <;> decide

/-- C3 amended: at the start of a re-run `reprocessImage` resets both
per-provider progress values to 0 and moves the job to `processing`, but
it does not clear the previous per-provider results; those remain
observable in every intermediate state of the run, and are replaced
wholesale (with the new run's outputs, `none` for a failed provider) only
by the run's single final result write, after which no superseded result
remains. -/
theorem reprocess_results_replaced_only_at_final_write (id : String)
    (env : ImageStore.RunEnv) (images : List ImageObject) (j : ImageObject)
    (hj : ImageStore.jobIn id images = some j)
    (hi : env.imglyWbgOk = true) (hp : env.photoroomWbgOk = true) :
    ((((ImageStore.reprocessTrace id env images).head?.bind (ImageStore.jobIn id)).map
        (fun x => (x.status, x.imglyProgress, x.photoroomProgress, x.imglyBlob, x.photoroomBlob))) =
      some (.processing, some 0, some 0, j.imglyBlob, j.photoroomBlob)) ∧
    (∀ s ∈ (ImageStore.reprocessTrace id env images).dropLast,
      (ImageStore.jobIn id s).map (fun x => (x.imglyBlob, x.photoroomBlob)) =
        some (j.imglyBlob, j.photoroomBlob)) ∧
    ((((ImageStore.reprocessTrace id env images).getLast?.bind (ImageStore.jobIn id)).map
        (fun x => (x.status, x.imglyBlob, x.photoroomBlob))) =
      some (.done, env.dual.imglyBlob.map Blob.whiteBg,
        env.dual.photoroomBlob.map Blob.whiteBg)) := by
  have hj' : images.find? (fun img => img.id == id) = some j := hj
  refine ⟨?_, ?_, ?_⟩
  · simp only [ImageStore.reprocessTrace, hj', runWhiteBg_ok env hi hp]
    simp only [List.head?]
    simp only [Option.bind]
    rw [jobIn_updateJob id _ (by intro img; rfl), hj]
    rfl
  · simp only [ImageStore.reprocessTrace, hj', runWhiteBg_ok env hi hp]
    intro s hs
    simp only [List.dropLast, List.mem_cons, List.not_mem_nil, or_false] at hs
    rcases hs with h | h | h | h
    · subst h
      rw [jobIn_updateJob id _ (by intro img; rfl), hj]
      rfl
    · subst h
      rw [jobIn_updateJob id _ (by intro img; rfl), jobIn_updateJob id _ (by intro img; rfl), hj]
      rfl
    · subst h
      rw [jobIn_updateJob id _ (by intro img; rfl), jobIn_updateJob id _ (by intro img; rfl),
          jobIn_updateJob id _ (by intro img; rfl), hj]
      rfl
    · subst h
      rw [jobIn_updateJob id _ (by intro img; rfl), jobIn_updateJob id _ (by intro img; rfl),
          jobIn_updateJob id _ (by intro img; rfl), jobIn_updateJob id _ (by intro img; rfl), hj]
      rfl
  · simp only [ImageStore.reprocessTrace, hj', runWhiteBg_ok env hi hp]
    rw [getLast?_five]
    simp only [Option.bind]
    rw [jobIn_updateJob id _ (by intro img; rfl), jobIn_updateJob id _ (by intro img; rfl),
        jobIn_updateJob id _ (by intro img; rfl), jobIn_updateJob id _ (by intro img; rfl),
        jobIn_updateJob id _ (by intro img; rfl), hj]
    rfl

theorem reprocess_results_replaced_only_at_final_write_witness :
    ImageStore.jobIn "job1" [doneJob] = some doneJob ∧
    bothOkEnv.imglyWbgOk = true ∧ bothOkEnv.photoroomWbgOk = true ∧
    ((((ImageStore.reprocessTrace "job1" bothOkEnv [doneJob]).head?.bind
        (ImageStore.jobIn "job1")).map
        (fun x => (x.status, x.imglyProgress, x.photoroomProgress, x.imglyBlob, x.photoroomBlob))) =
      some (.processing, some 0, some 0, doneJob.imglyBlob, doneJob.photoroomBlob)) ∧
    ((((ImageStore.reprocessTrace "job1" bothOkEnv [doneJob]).getLast?.bind
        (ImageStore.jobIn "job1")).map (fun x => (x.status, x.imglyBlob, x.photoroomBlob))) =
      some (.done, some (.whiteBg (.removed .imgly "photo.png")),
        some (.whiteBg (.removed .photoroom "photo.png")))) :=
  ⟨rfl, rfl, rfl,
    (reprocess_results_replaced_only_at_final_write "job1" bothOkEnv [doneJob] doneJob
      rfl rfl rfl).1,
    (reprocess_results_replaced_only_at_final_write "job1" bothOkEnv [doneJob] doneJob
      rfl rfl rfl).2.2⟩

/-- C2 at the failing input: `applyWatermarkToAll` with a configured
global watermark does set that watermark on every job and does trigger a
re-run for every job id, but the re-run's stored per-provider results are
only white-background composites of the provider outputs —
`reprocessImage` never invokes `addWatermark`, so neither stored result
contains the configured watermark (while a composited blob would report
`hasWatermark = true`). -/
theorem applyWatermarkToAll_result_lacks_watermark :
    (ImageStore.applyWatermarkToAll (some sampleWatermark) [doneJob]).2 = ["job1"] ∧
    ((ImageStore.applyWatermarkToAll (some sampleWatermark) [doneJob]).1.map
      (fun j => j.watermark)) = [some sampleWatermark] ∧
    ((((ImageStore.reprocessTrace "job1" bothOkEnv
        (ImageStore.applyWatermarkToAll (some sampleWatermark) [doneJob]).1).getLast?.bind
        (ImageStore.jobIn "job1")).map
        (fun j => (j.status, j.imglyBlob.map Blob.hasWatermark,
          j.photoroomBlob.map Blob.hasWatermark))) =
      some (.done, some false, some false)) ∧
    (ImageProcessor.addWatermark
      (.whiteBg (.removed .imgly "photo.png")) sampleWatermark).hasWatermark = true :=
  ⟨rfl, rfl, rfl, rfl⟩
